import Mathlib

/-
Verification of the Sensiron Smart Gadget BLE client driver (smart_gadget.py)
against its natural-language specification.

The driver is shallowly embedded: the `Sensiron` object's attributes become the
fields of `Session`, each `_irq` event branch becomes a case of `irq`, and every
operation-trigger method becomes a function `Session -> Session x List Action`,
where `Action` records the externally visible effects (radio-stack calls,
callback invocations, propagated exceptions).  Callback references are modelled
by tokens; the callbacks defined inside the repository itself (`scan_done` and
the three result decoders) are modelled explicitly, since they mutate the
session.  `struct.unpack` is modelled with its documented semantics: it
requires the sliced buffer to have exactly the format's size and raises
`struct.error` otherwise.
-/

namespace SmartGadget

/-! ## Constants (smart_gadget.py lines 136-196) -/

/-- Address type PUBLIC (line 136). -/
def ADDR_TYPE_PUBLIC : Nat := 0

/-- Address type RANDOM (line 137). -/
def ADDR_TYPE_RANDOM : Nat := 1

/-- Advertising type ADV_IND, connectable (line 140). -/
def ADV_IND : Nat := 0

/-- Advertising type ADV_DIRECT_IND (line 141). -/
def ADV_DIRECT_IND : Nat := 1

/-- Advertising type ADV_SCAN_IND, nonconnectable but scannable (line 142). -/
def ADV_SCAN_IND : Nat := 2

/-- Advertising type ADV_NONCONN_IND, nonconnectable (line 143). -/
def ADV_NONCONN_IND : Nat := 3

/-- Advertising type SCAN_RSP (line 144). -/
def ADV_SCAN_RSP : Nat := 4

/-- Fixed attribute handle of the battery level characteristic (line 178). -/
def HANDLE_BATT_LEVEL : Nat := 29

/-- Fixed attribute handle of the humidity characteristic (line 186). -/
def HANDLE_HUMIDITY : Nat := 50

/-- Fixed attribute handle of the temperature characteristic (line 187). -/
def HANDLE_TEMPERATURE : Nat := 55

/-- State machine state S_INIT (line 190). -/
def S_INIT : Nat := 0

/-- State machine state S_SCAN_DONE (line 191). -/
def S_SCAN_DONE : Nat := 1

/-- State machine state S_SERVICE_DONE (line 192). -/
def S_SERVICE_DONE : Nat := 2

/-- State machine state S_CHARACTERISTIC_DONE (line 193). -/
def S_CHARACTERISTIC_DONE : Nat := 3

/-- State machine state S_READ_BATTERY_DONE (line 194). -/
def S_READ_BATTERY_DONE : Nat := 4

/-- State machine state S_READ_TSENSOR_DONE (line 195). -/
def S_READ_TSENSOR_DONE : Nat := 5

/-- State machine state S_READ_HSENSOR_DONE (line 196). -/
def S_READ_HSENSOR_DONE : Nat := 6

/-! ## IEEE-754 binary32 decoding (semantics of `struct.unpack` formats) -/

/-- Value of an IEEE-754 single-precision float: a finite rational, a signed
infinity, or a NaN. -/
inductive F32 where
  | finite : ℚ → F32
  | infinite : Bool → F32
  | nan : F32
deriving DecidableEq

/-- Integer power of two as a rational. -/
def pow2q (e : Int) : ℚ :=
  if 0 ≤ e then ((2 : ℚ) ^ e.toNat) else 1 / ((2 : ℚ) ^ (-e).toNat)

/-- Decode four bytes, least significant first, as an IEEE-754 binary32 value
(the semantics of the `"<f"` format of `struct.unpack`). -/
def decodeF32LE (b0 b1 b2 b3 : Nat) : F32 :=
  let bits : Nat := b0 + 256 * b1 + 65536 * b2 + 16777216 * b3
  let sign : Nat := bits / 2 ^ 31
  let expo : Nat := (bits / 2 ^ 23) % 256
  let frac : Nat := bits % 2 ^ 23
  let sgn : ℚ := if sign = 1 then -1 else 1
  if expo = 255 then
    if frac = 0 then .infinite (sign == 1) else .nan
  else if expo = 0 then
    .finite (sgn * ((frac : ℚ) / 2 ^ 23) * pow2q (-126))
  else
    .finite (sgn * (1 + (frac : ℚ) / 2 ^ 23) * pow2q ((expo : Int) - 127))

/-- Semantics of `struct.unpack("B", data[0:1])`: one unsigned byte; raises
`struct.error` if the sliced buffer is not exactly one byte long.  Python
returns a 1-tuple; we model the single decoded element. -/
def struct_unpack_B (data : List Nat) : Except String Nat :=
  match data.take 1 with
  | [b] => .ok b
  | _ => .error "struct.error: unpack requires a buffer of 1 bytes"

/-- Semantics of `struct.unpack("<f", data[0:4])`: one little-endian IEEE-754
single-precision float; raises `struct.error` if the sliced buffer is not
exactly four bytes long.  Python returns a 1-tuple; we model the single
decoded element. -/
def struct_unpack_f_le (data : List Nat) : Except String F32 :=
  match data.take 4 with
  | [b0, b1, b2, b3] => .ok (decodeF32LE b0 b1 b2 b3)
  | _ => .error "struct.error: unpack requires a buffer of 4 bytes"

/-! ## Callback tokens -/

/-- Scan callback slot contents: the repository's own `Sensiron.scan_done`
method (which sets `state := S_SCAN_DONE`), or an unknown external callback
identified by a token. -/
inductive ScanCb where
  | scan_done_cb : ScanCb
  | other : Nat → ScanCb
deriving DecidableEq

/-- Read callback slot contents: one of the repository's three result decoders,
or an unknown external callback identified by a token. -/
inductive ReadCb where
  | battery_done : ReadCb
  | temp_done : ReadCb
  | humid_done : ReadCb
  | other : Nat → ReadCb
deriving DecidableEq

/-! ## The driver session (the `Sensiron` object's attributes) -/

/-- Attributes of a `Sensiron` object.  Fields keep the Python names with the
leading underscore dropped.  `services`, `characteristics` and
`search_service` are `Option`s whose `none` means the Python attribute does
not exist yet: `_reset` (and hence the constructor) never assigns them —
`services`/`characteristics` are created by the discover triggers and
`search_service` by the caller. -/
structure Session where
  state : Nat
  search_addr : Option (List Nat)
  addr_found : Bool
  name : Option String
  rssi : Int
  version : Option String
  battery : Option Nat
  temperature : Option F32
  humidity : Option F32
  addr_type : Option Nat
  addr : Option (List Nat)
  value : Option (List Nat)
  scan_callback : Option ScanCb
  conn_callback : Option Nat
  serv_done_callback : Option Nat
  char_done_callback : Option Nat
  read_callback : Option ReadCb
  write_callback : Option Nat
  notify_callback : Option Nat
  conn_handle : Option Nat
  start_handle : Option Nat
  end_handle : Option Nat
  value_handle : Option Nat
  services : Option (List (String × Nat × Nat))
  characteristics : Option (List (String × Nat × Nat × Nat))
  search_service : Option String
deriving DecidableEq

/-- `Sensiron._reset` (lines 241-276): restores every attribute assigned there
to its initial value.  It does NOT touch `services`, `characteristics` or
`search_service`, which are not assigned in `_reset`. -/
def reset (s : Session) : Session :=
  { s with
    state := S_INIT
    search_addr := none
    addr_found := false
    name := none
    rssi := 0
    version := none
    battery := none
    temperature := none
    humidity := none
    addr_type := none
    addr := none
    value := none
    scan_callback := none
    conn_callback := none
    serv_done_callback := none
    char_done_callback := none
    read_callback := none
    write_callback := none
    notify_callback := none
    conn_handle := none
    start_handle := none
    end_handle := none
    value_handle := none }

/-- A freshly constructed `Sensiron` object: the constructor calls `_reset`,
and `services`/`characteristics`/`search_service` do not exist yet. -/
def emptySession : Session :=
  { state := S_INIT, search_addr := none, addr_found := false, name := none,
    rssi := 0, version := none, battery := none, temperature := none,
    humidity := none, addr_type := none, addr := none, value := none,
    scan_callback := none, conn_callback := none, serv_done_callback := none,
    char_done_callback := none, read_callback := none, write_callback := none,
    notify_callback := none, conn_handle := none, start_handle := none,
    end_handle := none, value_handle := none, services := none,
    characteristics := none, search_service := none }

/-- `Sensiron.is_connected` (lines 702-708): `self._conn_handle is not None`. -/
def is_connected (s : Session) : Bool :=
  s.conn_handle.isSome

/-- Python `dict` assignment `d[k] = v`: replace the binding of `k` if present,
otherwise append it. -/
def dictInsert {α : Type} : List (String × α) → String → α → List (String × α)
  | [], k, v => [(k, v)]
  | (k2, v2) :: rest, k, v =>
      if k2 = k then (k, v) :: rest else (k2, v2) :: dictInsert rest k v

/-! ## Result decoders (lines 649-700) -/

/-- `Sensiron.scan_done` (lines 649-660): sets `state := S_SCAN_DONE`
regardless of its arguments. -/
def scan_done (s : Session) : Session :=
  { s with state := S_SCAN_DONE }

/-- `Sensiron.read_battery_level_done` (lines 662-673):
`self.battery = struct.unpack("B", data[0:1])` then
`self.state = S_READ_BATTERY_DONE`.  If `unpack` raises, the exception
propagates before either assignment, so an `.error` result means no field was
mutated. -/
def read_battery_level_done (s : Session) (data : List Nat) :
    Except String Session :=
  match struct_unpack_B data with
  | .error e => .error e
  | .ok b => .ok { s with battery := some b, state := S_READ_BATTERY_DONE }

/-- `Sensiron.read_temp_sensor_done` (lines 675-688):
`self.temperature = struct.unpack("<f", data[0:4])` then
`self.state = S_READ_TSENSOR_DONE`; an `.error` means no field was mutated. -/
def read_temp_sensor_done (s : Session) (data : List Nat) :
    Except String Session :=
  match struct_unpack_f_le data with
  | .error e => .error e
  | .ok t => .ok { s with temperature := some t, state := S_READ_TSENSOR_DONE }

/-- `Sensiron.read_humid_sensor_done` (lines 690-700):
`self.humidity = struct.unpack("<f", data[0:4])` then
`self.state = S_READ_HSENSOR_DONE`; an `.error` means no field was mutated. -/
def read_humid_sensor_done (s : Session) (data : List Nat) :
    Except String Session :=
  match struct_unpack_f_le data with
  | .error e => .error e
  | .ok h => .ok { s with humidity := some h, state := S_READ_HSENSOR_DONE }

/-- Effect on the session of invoking the stored scan callback: the
repository's `scan_done` sets the state; an external callback does not touch
the session. -/
def applyScanCb : ScanCb → Session → Session
  | .scan_done_cb, s => scan_done s
  | .other _, s => s

/-- Effect on the session of invoking the stored read callback with the read
payload: the repository's decoders mutate the session (and may raise); an
external callback does not touch it. -/
def applyReadCb : ReadCb → Session → List Nat → Except String Session
  | .battery_done, s, data => read_battery_level_done s data
  | .temp_done, s, data => read_temp_sensor_done s data
  | .humid_done, s, data => read_humid_sensor_done s data
  | .other _, s, _ => .ok s

/-! ## Events and externally visible actions -/

/-- The BLE events consumed by `Sensiron._irq`.  A `scanResult` carries the
result of the external `decode_name` utility (a `none` models a falsy result,
which the handler replaces by `"?"`). -/
inductive Event where
  | scanResult (atype : Nat) (addr : List Nat) (advType : Nat) (rssi : Int)
      (decName : Option String)
  | scanDone
  | periphConnect (connH atype : Nat) (addr : List Nat)
  | periphDisconnect (connH : Nat)
  | serviceResult (connH startH endH : Nat) (uuid : String)
  | serviceDone
  | charResult (connH defH valueH props : Nat) (uuid : String)
  | charDone
  | readResult (connH valueH : Nat) (charData : List Nat)
  | readDone (connH valueH status : Nat)
  | writeDone (connH valueH status : Nat)
  | gattcNotify (connH valueH : Nat) (notifyData : List Nat)
deriving DecidableEq

/-- Externally visible effects of a handler or trigger: radio-stack calls,
callback invocations (with the arguments passed), and exceptions that
propagate out of the Python code. -/
inductive Action where
  | startScan
  | stopScan
  | gapConnect (atype : Nat) (addr : List Nat)
  | gapDisconnect (h : Nat)
  | discServices (h : Nat)
  | discChars (h sh eh : Nat)
  | gattcRead (h vh : Nat)
  | callScan (cb : ScanCb) (atype : Option Nat) (addr : Option (List Nat))
      (nm : Option String)
  | callConn (cb : Nat)
  | callServDone (cb : Nat)
  | callCharDone (cb : Nat)
  | callRead (cb : ReadCb) (payload : List Nat)
  | callWrite (cb : Nat)
  | callNotify (cb : Nat) (payload : List Nat)
  | raised (msg : String)
deriving DecidableEq

/-! ## The event router `Sensiron._irq` (lines 287-474) -/

/-- `Sensiron._irq`: dispatch one BLE event, returning the mutated session and
the list of externally visible actions, in order. -/
def irq (s : Session) : Event → Session × List Action
  | .scanResult atype addr advType rssi decName =>
      -- lines 297-337: record the advertiser and stop scanning iff the
      -- advertising type is in (_ADV_IND, _ADV_DIRECT_IND, _ADV_SCAN_RSP)
      -- and bytes(addr) == self.search_addr.
      if (advType = ADV_IND ∨ advType = ADV_DIRECT_IND ∨ advType = ADV_SCAN_RSP)
          ∧ s.search_addr = some addr then
        let nm := decName.getD "?"
        ({ s with
            addr_type := some atype
            rssi := rssi
            addr_found := true
            addr := some addr
            name := if nm ≠ "?" then some nm else s.name },
         [.stopScan])
      else
        (s, [])
  | .scanDone =>
      -- lines 339-350: if a device was found, invoke the scan callback with
      -- (addr_type, addr, name) and clear the slot; otherwise (scan timed
      -- out) invoke it with (None, None, None) WITHOUT clearing the slot.
      match s.scan_callback with
      | none => (s, [])
      | some cb =>
          match s.addr with
          | some a =>
              ({ applyScanCb cb s with scan_callback := none },
               [.callScan cb s.addr_type (some a) s.name])
          | none =>
              (applyScanCb cb s, [.callScan cb none none none])
  | .periphConnect connH atype addr =>
      -- lines 352-366: store the handle and fire the connect callback iff the
      -- connected address type and address match the cached ones.
      if s.addr_type = some atype ∧ s.addr = some addr then
        let s1 := { s with conn_handle := some connH }
        match s1.conn_callback with
        | some cb => ({ s1 with conn_callback := none }, [.callConn cb])
        | none => (s1, [])
      else
        (s, [])
  | .periphDisconnect connH =>
      -- lines 373-378: full reset iff the handle matches.
      if s.conn_handle = some connH then (reset s, []) else (s, [])
  | .serviceResult connH startH endH uuid =>
      -- lines 380-391: record the service; remember its handle range if it is
      -- the searched-for service.  `self.services[...]` raises AttributeError
      -- when `discover_services` was never called.
      if s.conn_handle = some connH then
        match s.services with
        | none => (s, [.raised "AttributeError: services"])
        | some dict =>
            let s1 := { s with services := some (dictInsert dict uuid (startH, endH)) }
            if s1.search_service = some uuid then
              ({ s1 with start_handle := some startH, end_handle := some endH }, [])
            else
              (s1, [])
      else
        (s, [])
  | .serviceDone =>
      -- lines 393-399: unconditionally set the state, then fire and clear the
      -- service-done callback.
      let s1 := { s with state := S_SERVICE_DONE }
      match s1.serv_done_callback with
      | some cb => ({ s1 with serv_done_callback := none }, [.callServDone cb])
      | none => (s1, [])
  | .charResult connH defH valueH props uuid =>
      -- lines 414-424: record the characteristic if the handle matches.
      if s.conn_handle = some connH then
        match s.characteristics with
        | none => (s, [.raised "AttributeError: characteristics"])
        | some dict =>
            let d2 := dictInsert dict uuid (defH, valueH, props)
            ({ s with characteristics := some d2 }, [])
      else
        (s, [])
  | .charDone =>
      -- lines 426-432: unconditionally set the state, then fire and clear the
      -- characteristic-done callback.
      let s1 := { s with state := S_CHARACTERISTIC_DONE }
      match s1.char_done_callback with
      | some cb => ({ s1 with char_done_callback := none }, [.callCharDone cb])
      | none => (s1, [])
  | .readResult connH valueH charData =>
      -- lines 436-444: if both handles match, cache the payload, invoke the
      -- read callback with it and clear the slot.  The clearing assignment
      -- comes AFTER the call, so if a decoder raises, the slot stays set and
      -- the exception propagates.
      if s.conn_handle = some connH ∧ s.value_handle = some valueH then
        let s1 := { s with value := some charData }
        match s1.read_callback with
        | none => (s1, [])
        | some cb =>
            match applyReadCb cb s1 charData with
            | .ok s2 => ({ s2 with read_callback := none },
                         [.callRead cb charData])
            | .error msg => (s1, [.callRead cb charData, .raised msg])
      else
        (s, [])
  | .readDone _ _ _ =>
      -- lines 446-449: read completed, no-op.
      (s, [])
  | .writeDone connH valueH _ =>
      -- lines 453-463: fire and clear the write callback if both handles
      -- match.
      if s.conn_handle = some connH ∧ s.value_handle = some valueH then
        match s.write_callback with
        | some cb => ({ s with write_callback := none }, [.callWrite cb])
        | none => (s, [])
      else
        (s, [])
  | .gattcNotify connH valueH notifyData =>
      -- lines 467-474: cache the payload and invoke the persistent notify
      -- callback (without clearing it) if both handles match.
      if s.conn_handle = some connH ∧ s.value_handle = some valueH then
        let s1 := { s with value := some notifyData }
        match s1.notify_callback with
        | some cb => (s1, [.callNotify cb notifyData])
        | none => (s1, [])
      else
        (s, [])

/-- Run a sequence of events through `irq`, collecting the actions in order. -/
def run (s : Session) : List Event → Session × List Action
  | [] => (s, [])
  | e :: es =>
      let r1 := irq s e
      let r2 := run r1.1 es
      (r2.1, r1.2 ++ r2.2)

/-! ## Operation triggers (lines 478-646) -/

/-- `Sensiron.scan` (lines 478-493): clears the cached address and address
type, stores the scan callback and requests a timed scan (OSError from
`gap_scan` is swallowed). -/
def scan (s : Session) (callback : Option ScanCb) : Session × List Action :=
  ({ s with addr_type := none, addr := none, scan_callback := callback },
   [.startScan])

/-- `Sensiron.gap_connect` (lines 495-526), parameterised by whether the radio
stack accepts the request (`gap_connect` raising OSError is caught and turned
into `False`).  When neither an explicit nor a cached address is available the
code calls the nonexistent method `self.debug`, so an AttributeError
propagates — modelled by the `.error` result; the parameter-error path is
reached after `self._conn_callback = callback` has already run. -/
def gap_connect (s : Session) (atype : Option Nat) (addr : Option (List Nat))
    (callback : Option Nat) (stackAccepts : Bool) :
    Session × Except String Bool × List Action :=
  let s1 := if atype.isSome ∧ addr.isSome
            then { s with addr_type := atype, addr := addr } else s
  let s2 := { s1 with conn_callback := callback }
  match s2.addr_type, s2.addr with
  | some t, some a => (s2, .ok stackAccepts, [.gapConnect t a])
  | _, _ =>
      (s2, .error "AttributeError: Sensiron object has no attribute debug", [])

/-- `Sensiron.disconnect` (lines 528-539): `if not self._conn_handle: return`
— Python truthiness, so a stored handle `0` is treated like `None`; otherwise
request link termination (OSError swallowed) and immediately `_reset`. -/
def disconnect (s : Session) : Session × List Action :=
  match s.conn_handle with
  | none => (s, [])
  | some h => if h = 0 then (s, []) else (reset s, [.gapDisconnect h])

/-- `Sensiron.discover_services` (lines 541-561): `self.services = {}` runs
BEFORE the `is_connected` check; when disconnected the method then returns
without storing the callback or calling the stack. -/
def discover_services (s : Session) (callback : Option Nat) :
    Session × List Action :=
  let s1 := { s with services := some [] }
  match s1.conn_handle with
  | none => (s1, [])
  | some h => ({ s1 with serv_done_callback := callback }, [.discServices h])

/-- `Sensiron.discover_characteristics` (lines 563-586):
`self.characteristics = {}` runs BEFORE the `is_connected` check. -/
def discover_characteristics (s : Session) (startH endH : Nat)
    (callback : Option Nat) : Session × List Action :=
  let s1 := { s with characteristics := some [] }
  match s1.conn_handle with
  | none => (s1, [])
  | some h =>
      ({ s1 with char_done_callback := callback }, [.discChars h startH endH])

/-- `Sensiron.read` (lines 588-604): connected-only; stores the read callback
and reads the currently set `_value_handle` (a `None` value handle would make
`gattc_read` raise a TypeError, which is not caught). -/
def read (s : Session) (callback : Option ReadCb) : Session × List Action :=
  match s.conn_handle with
  | none => (s, [])
  | some h =>
      let s1 := { s with read_callback := callback }
      match s1.value_handle with
      | some vh => (s1, [.gattcRead h vh])
      | none => (s1, [.raised "TypeError: gattc_read with value_handle None"])

/-- `Sensiron.read_battery_level` (lines 606-624): connected-only; stores the
read callback, sets `_value_handle := _HANDLE_BATT_LEVEL` and issues the
read. -/
def read_battery_level (s : Session) (callback : Option ReadCb) :
    Session × List Action :=
  match s.conn_handle with
  | none => (s, [])
  | some h =>
      ({ s with read_callback := callback,
                value_handle := some HANDLE_BATT_LEVEL },
       [.gattcRead h HANDLE_BATT_LEVEL])

/-- `Sensiron.read_temp_sensor` (lines 626-635): connected-only; stores the
read callback, sets `_value_handle := _HANDLE_TEMPERATURE` and issues the
read. -/
def read_temp_sensor (s : Session) (callback : Option ReadCb) :
    Session × List Action :=
  match s.conn_handle with
  | none => (s, [])
  | some h =>
      ({ s with read_callback := callback,
                value_handle := some HANDLE_TEMPERATURE },
       [.gattcRead h HANDLE_TEMPERATURE])

/-- `Sensiron.read_humid_sensor` (lines 637-646): connected-only; stores the
read callback, sets `_value_handle := _HANDLE_HUMIDITY` and issues the
read. -/
def read_humid_sensor (s : Session) (callback : Option ReadCb) :
    Session × List Action :=
  match s.conn_handle with
  | none => (s, [])
  | some h =>
      ({ s with read_callback := callback,
                value_handle := some HANDLE_HUMIDITY },
       [.gattcRead h HANDLE_HUMIDITY])

end SmartGadget

namespace SmartGadget

/-! ## Helper lemmas shared by the claim theorems -/

/-- Characterisation of a successful read-callback invocation: the battery
decoder only sets `battery` and the state, the temperature decoder only sets
`temperature` and the state, the humidity decoder only sets `humidity` and the
state, and an external callback leaves the session unchanged. -/
theorem applyReadCb_ok (cb : ReadCb) (s s2 : Session) (d : List Nat)
    (h : applyReadCb cb s d = .ok s2) :
    (cb = .battery_done ∧
      ∃ b, s2 = { s with battery := some b, state := S_READ_BATTERY_DONE }) ∨
    (cb = .temp_done ∧
      ∃ t, s2 = { s with temperature := some t, state := S_READ_TSENSOR_DONE }) ∨
    (cb = .humid_done ∧
      ∃ q, s2 = { s with humidity := some q, state := S_READ_HSENSOR_DONE }) ∨
    s2 = s := by
  cases cb with
  | battery_done =>
      left
      simp only [applyReadCb, read_battery_level_done] at h
      cases hu : struct_unpack_B d with
      | error m => rw [hu] at h; cases h
      | ok b => rw [hu] at h; exact ⟨rfl, b, (Except.ok.injEq _ _).mp h.symm⟩
  | temp_done =>
      right; left
      simp only [applyReadCb, read_temp_sensor_done] at h
      cases hu : struct_unpack_f_le d with
      | error m => rw [hu] at h; cases h
      | ok t => rw [hu] at h; exact ⟨rfl, t, (Except.ok.injEq _ _).mp h.symm⟩
  | humid_done =>
      right; right; left
      simp only [applyReadCb, read_humid_sensor_done] at h
      cases hu : struct_unpack_f_le d with
      | error m => rw [hu] at h; cases h
      | ok q => rw [hu] at h; exact ⟨rfl, q, (Except.ok.injEq _ _).mp h.symm⟩
  | other i =>
      right; right; right
      simp only [applyReadCb] at h
      exact ((Except.ok.injEq _ _).mp h).symm

end SmartGadget

namespace SmartGadget

/-- The state value that an event can install, as a function of the event kind
and the pending callback slots: service-done and characteristic-done write
their completion states unconditionally; a scan-done with the repository's
`scan_done` callback writes `S_SCAN_DONE`; a read-result whose pending read
callback is one of the three decoders writes that decoder's completion
state. -/
def eventTarget (s : Session) : Event → Option Nat
  | .scanDone =>
      match s.scan_callback with
      | some .scan_done_cb => some S_SCAN_DONE
      | _ => none
  | .serviceDone => some S_SERVICE_DONE
  | .charDone => some S_CHARACTERISTIC_DONE
  | .readResult _ _ _ =>
      match s.read_callback with
      | some .battery_done => some S_READ_BATTERY_DONE
      | some .temp_done => some S_READ_TSENSOR_DONE
      | some .humid_done => some S_READ_HSENSOR_DONE
      | _ => none
  | _ => none

/-- C1 (counterexample): with the session in state
`S_CHARACTERISTIC_DONE`, a (re-delivered or stale) service-done event moves
the state BACKWARD to `S_SERVICE_DONE` without any reset — the handler for
`_IRQ_GATTC_SERVICE_DONE` assigns `state = S_SERVICE_DONE` unconditionally.
This refutes the claim that the state never moves backward without a reset. -/
theorem C1_counterexample :
    (irq { emptySession with state := S_CHARACTERISTIC_DONE } .serviceDone).1.state
        < ({ emptySession with state := S_CHARACTERISTIC_DONE } : Session).state ∧
    (irq { emptySession with state := S_CHARACTERISTIC_DONE } .serviceDone).1.state
        ≠ S_INIT := by
  decide

/-- C1 (amended): every single event either leaves the state unchanged, resets
it to `S_INIT` (matching peripheral-disconnect), or writes the completion
state fixed by that event kind and the pending callback — independently of
the current state.  Hence the state moves forward when completion events
arrive in canonical order, but an out-of-order completion event moves it
backward without a reset. -/
theorem C1_state_set_by_event (s : Session) (e : Event) :
    (irq s e).1.state = s.state ∨ (irq s e).1.state = S_INIT ∨
      eventTarget s e = some (irq s e).1.state := by
  cases e with
  | scanResult atype addr advType rssi decName =>
      left; simp only [irq]; split <;> rfl
  | scanDone =>
      cases hcb : s.scan_callback with
      | none => left; simp [irq, hcb]
      | some cb =>
          cases cb with
          | scan_done_cb =>
              right; right
              cases ha : s.addr <;>
                simp [irq, hcb, ha, eventTarget, applyScanCb, scan_done]
          | other i =>
              left
              cases ha : s.addr <;> simp [irq, hcb, ha, applyScanCb]
  | periphConnect connH atype addr =>
      left
      simp only [irq]
      split
      · cases hcb : s.conn_callback <;> simp [hcb]
      · rfl
  | periphDisconnect connH =>
      simp only [irq]
      split
      · right; left; rfl
      · left; rfl
  | serviceResult connH startH endH uuid =>
      left
      simp only [irq]
      split
      · cases hs : s.services with
        | none => simp [hs]
        | some dict => simp only [hs]; split <;> rfl
      · rfl
  | serviceDone =>
      right; right
      simp only [irq, eventTarget]
      cases hcb : s.serv_done_callback <;> simp [hcb]
  | charResult connH defH valueH props uuid =>
      left
      simp only [irq]
      split
      · cases hs : s.characteristics <;> simp [hs]
      · rfl
  | charDone =>
      right; right
      simp only [irq, eventTarget]
      cases hcb : s.char_done_callback <;> simp [hcb]
  | readResult connH valueH charData =>
      simp only [irq]
      split
      · split
        · left; rfl
        · rename_i cb hcb
          have hcb2 : s.read_callback = some cb := hcb
          split
          · rename_i s2 hap
            rcases applyReadCb_ok cb _ s2 charData hap with
              ⟨hb, b, rfl⟩ | ⟨ht, t, rfl⟩ | ⟨hq, q, rfl⟩ | rfl
            · subst hb; right; right; simp [eventTarget, hcb2]
            · subst ht; right; right; simp [eventTarget, hcb2]
            · subst hq; right; right; simp [eventTarget, hcb2]
            · left; rfl
          · left; rfl
      · left; rfl
  | readDone connH valueH status => left; rfl
  | writeDone connH valueH status =>
      left
      simp only [irq]
      split
      · cases hcb : s.write_callback <;> simp [hcb]
      · rfl
  | gattcNotify connH valueH notifyData =>
      left
      simp only [irq]
      split
      · cases hcb : s.notify_callback <;> simp [hcb]
      · rfl

end SmartGadget

namespace SmartGadget

/-- A session in which a scan is pending (`_scan_callback` set) but no device
was found (`_addr` is `None`), i.e. the scan is about to time out. -/
def scanTimeoutSession : Session :=
  { emptySession with scan_callback := some (.other 7) }

/-- C2: the scan-done handler's timeout branch (line 350) invokes the pending
scan callback with `(None, None, None)` but does NOT clear the slot, so the
slot is still occupied afterwards and a second scan-done event for the same
trigger invokes the very same callback again — contradicting both the claim
and the code's own comment that callbacks "reset back to None after being
invoked". -/
theorem C2_scan_timeout_double_invoke :
    (irq scanTimeoutSession .scanDone).2 =
        [.callScan (.other 7) none none none] ∧
    (irq scanTimeoutSession .scanDone).1.scan_callback = some (.other 7) ∧
    (irq (irq scanTimeoutSession .scanDone).1 .scanDone).2 =
        [.callScan (.other 7) none none none] := by
  decide

/-- C4: calling `gap_connect` with no explicit address and no cached address
stores the connect callback and then calls the nonexistent method
`self.debug`, so an `AttributeError` propagates out of the call instead of
the documented `False` return; with an address available and the stack
accepting, it returns `True`. -/
theorem C4_gap_connect_attribute_error :
    (gap_connect emptySession none none (some 5) true).2.1 =
        .error "AttributeError: Sensiron object has no attribute debug" ∧
    (gap_connect emptySession none none (some 5) true).1.conn_callback =
        some 5 ∧
    (gap_connect emptySession none none (some 5) true).2.2 = [] ∧
    (gap_connect emptySession (some 1) (some [1, 2]) none true).2.1 =
        .ok true :=
  ⟨rfl, rfl, rfl, rfl⟩

/-- A session connected with connection handle `0`. -/
def handleZeroSession : Session :=
  { emptySession with conn_handle := some 0 }

/-- C6: `disconnect` guards with `if not self._conn_handle`, a Python
truthiness test, so a stored connection handle `0` — for which
`is_connected()` returns `True` — is treated as "not connected": no link
termination is requested and no reset happens, contradicting the claim (and
the spec's rule that the presence of `connection_handle` is the sole
authority for connectedness).  For a nonzero handle the method requests
termination and immediately resets, and with no handle it is a no-op. -/
theorem C6_disconnect_handle_zero :
    is_connected handleZeroSession = true ∧
    disconnect handleZeroSession = (handleZeroSession, []) ∧
    disconnect { emptySession with conn_handle := some 5 } =
        (reset { emptySession with conn_handle := some 5 },
         [.gapDisconnect 5]) ∧
    disconnect emptySession = (emptySession, []) := by
  decide

end SmartGadget

namespace SmartGadget

/-- Whether an action is the invocation of a one-shot callback (the persistent
notification callback is not one-shot). -/
def isOneShotInvocation : Action → Bool
  | .callScan _ _ _ _ => true
  | .callConn _ => true
  | .callServDone _ => true
  | .callCharDone _ => true
  | .callRead _ _ => true
  | .callWrite _ => true
  | _ => false

/-- No action in the list invokes a one-shot callback. -/
def oneShotFree (acts : List Action) : Bool :=
  acts.all fun a => ! isOneShotInvocation a

/-- All six one-shot callback slots of the session are empty. -/
def allOneShotNone (s : Session) : Bool :=
  s.scan_callback.isNone && s.conn_callback.isNone &&
  s.serv_done_callback.isNone && s.char_done_callback.isNone &&
  s.read_callback.isNone && s.write_callback.isNone

/-- If every one-shot slot is empty, processing any event invokes no one-shot
callback and leaves every one-shot slot empty (no `_irq` branch ever stores a
one-shot callback: only the triggers do). -/
theorem irq_oneShotNone (s : Session) (e : Event)
    (h : allOneShotNone s = true) :
    allOneShotNone (irq s e).1 = true ∧ oneShotFree (irq s e).2 = true := by
  simp only [allOneShotNone, Bool.and_eq_true, Option.isNone_iff_eq_none] at h
  obtain ⟨⟨⟨⟨⟨h1, h2⟩, h3⟩, h4⟩, h5⟩, h6⟩ := h
  cases e with
  | scanResult atype addr advType rssi decName =>
      simp only [irq]
      split <;>
        simp [allOneShotNone, oneShotFree, isOneShotInvocation,
              h1, h2, h3, h4, h5, h6]
  | scanDone =>
      simp [irq, h1, allOneShotNone, oneShotFree,
            h2, h3, h4, h5, h6]
  | periphConnect connH atype addr =>
      simp only [irq]
      split <;>
        simp [allOneShotNone, oneShotFree, h1, h2, h3, h4, h5, h6]
  | periphDisconnect connH =>
      simp only [irq]
      split <;>
        simp [allOneShotNone, oneShotFree, reset, h1, h2, h3, h4, h5, h6]
  | serviceResult connH startH endH uuid =>
      simp only [irq]
      split
      · cases hs : s.services with
        | none =>
            simp [hs, allOneShotNone, oneShotFree, isOneShotInvocation,
                  h1, h2, h3, h4, h5, h6]
        | some dict =>
            simp only [hs]
            split <;>
              simp [allOneShotNone, oneShotFree, h1, h2, h3, h4, h5, h6]
      · simp [allOneShotNone, oneShotFree, h1, h2, h3, h4, h5, h6]
  | serviceDone =>
      simp [irq, h3, allOneShotNone, oneShotFree, h1, h2, h4, h5, h6]
  | charResult connH defH valueH props uuid =>
      simp only [irq]
      split
      · cases hs : s.characteristics <;>
          simp [hs, allOneShotNone, oneShotFree, isOneShotInvocation,
                h1, h2, h3, h4, h5, h6]
      · simp [allOneShotNone, oneShotFree, h1, h2, h3, h4, h5, h6]
  | charDone =>
      simp [irq, h4, allOneShotNone, oneShotFree, h1, h2, h3, h5, h6]
  | readResult connH valueH charData =>
      simp only [irq]
      split <;>
        simp [h5, allOneShotNone, oneShotFree, h1, h2, h3, h4, h6]
  | readDone connH valueH status =>
      simp [irq, allOneShotNone, oneShotFree, h1, h2, h3, h4, h5, h6]
  | writeDone connH valueH status =>
      simp only [irq]
      split <;>
        simp [h6, allOneShotNone, oneShotFree, h1, h2, h3, h4, h5]
  | gattcNotify connH valueH notifyData =>
      simp only [irq]
      split
      · cases hn : s.notify_callback <;>
          simp [hn, allOneShotNone, oneShotFree, isOneShotInvocation,
                h1, h2, h3, h4, h5, h6]
      · simp [allOneShotNone, oneShotFree, h1, h2, h3, h4, h5, h6]

/-- Running any event sequence from a session whose one-shot slots are all
empty never invokes a one-shot callback. -/
theorem run_oneShotFree (es : List Event) (s : Session)
    (h : allOneShotNone s = true) :
    oneShotFree (run s es).2 = true := by
  induction es generalizing s with
  | nil => rfl
  | cons e es ih =>
      obtain ⟨h1, h2⟩ := irq_oneShotNone s e h
      simp only [run, oneShotFree, List.all_append, Bool.and_eq_true]
      exact ⟨h2, ih _ h1⟩

/-- A connected session with pending one-shot callbacks and a non-empty
service discovery cache. -/
def connectedSession : Session :=
  { emptySession with
      conn_handle := some 7
      services := some [("0x1800", 1, 5)]
      characteristics := some [("0x2a00", 2, 3, 2)]
      scan_callback := some (.other 3)
      read_callback := some .battery_done }

/-- C3 (counterexample): a peripheral-disconnect event for the session's own
handle does reset the state and drop the connection handle, but the
`services` and `characteristics` discovery caches are NOT cleared —
`_reset` never assigns them — refuting the "all caches cleared" part of the
claim. -/
theorem C3_counterexample :
    (irq connectedSession (.periphDisconnect 7)).1.state = S_INIT ∧
    (irq connectedSession (.periphDisconnect 7)).1.conn_handle = none ∧
    (irq connectedSession (.periphDisconnect 7)).1.services =
        some [("0x1800", 1, 5)] ∧
    (irq connectedSession (.periphDisconnect 7)).1.services ≠ some [] ∧
    (irq connectedSession (.periphDisconnect 7)).1.characteristics =
        some [("0x2a00", 2, 3, 2)] := by
  decide

/-- C3 (amended): a peripheral-disconnect event for the session's own handle
performs the session reset — state back to `Init`, `connection_handle`
absent, the scanned-address and value caches cleared, every one-shot callback
slot emptied so that no previously pending one-shot callback is ever invoked
by any further event sequence — but the `services` and `characteristics`
discovery caches survive the reset unchanged; they are only cleared at the
start of the next discovery operation. -/
theorem C3_disconnect_resets (s : Session) (h : Nat)
    (hconn : s.conn_handle = some h) :
    irq s (.periphDisconnect h) = (reset s, []) ∧
    (reset s).state = S_INIT ∧
    (reset s).conn_handle = none ∧
    allOneShotNone (reset s) = true ∧
    (reset s).services = s.services ∧
    (reset s).characteristics = s.characteristics ∧
    ∀ es : List Event, oneShotFree (run (reset s) es).2 = true := by
  refine ⟨?_, rfl, rfl, rfl, rfl, rfl, ?_⟩
  · simp [irq, hconn]
  · intro es
    exact run_oneShotFree es _ rfl

/-- C3 witness: the amended theorem applied to the concrete connected session
and a concrete follow-up event sequence. -/
theorem C3_disconnect_resets_witness :
    irq connectedSession (.periphDisconnect 7) = (reset connectedSession, []) ∧
    oneShotFree
        (run (reset connectedSession)
          [.scanDone, .serviceDone, .charDone, .readResult 7 29 [100],
           .writeDone 7 29 0]).2 = true := by
  have h := C3_disconnect_resets connectedSession 7 rfl
  exact ⟨h.1, h.2.2.2.2.2.2 _⟩

end SmartGadget

namespace SmartGadget

/-- C5: a scan-result event records the advertiser's address, address type,
rssi and (when the advertisement decodes to a name) the name, sets
`addr_found` and requests the radio stack to stop scanning, exactly when the
advertiser address equals `search_addr` and the advertising type is one of
the connectable/accepted set `(_ADV_IND, _ADV_DIRECT_IND, _ADV_SCAN_RSP)`;
any other scan result leaves the session unchanged and issues no call. -/
theorem C5_scan_result (s : Session) (atype : Nat) (addr : List Nat)
    (advType : Nat) (rssi : Int) (decName : Option String) :
    (((advType = ADV_IND ∨ advType = ADV_DIRECT_IND ∨ advType = ADV_SCAN_RSP)
        ∧ s.search_addr = some addr) →
      irq s (.scanResult atype addr advType rssi decName) =
        ({ s with
            addr_type := some atype
            rssi := rssi
            addr_found := true
            addr := some addr
            name := if decName.getD "?" ≠ "?" then some (decName.getD "?")
                    else s.name },
         [.stopScan])) ∧
    (¬ ((advType = ADV_IND ∨ advType = ADV_DIRECT_IND ∨ advType = ADV_SCAN_RSP)
        ∧ s.search_addr = some addr) →
      irq s (.scanResult atype addr advType rssi decName) = (s, [])) := by
  constructor <;> intro h <;> simp only [irq] <;> split
  · rfl
  · rename_i hc; exact absurd h hc
  · rename_i hc; exact absurd hc h
  · rfl

/-- C5 witness: a matching, connectable scan result on a concrete session. -/
theorem C5_scan_result_witness :
    irq { emptySession with search_addr := some [1, 2, 3, 4, 5, 6] }
        (.scanResult 1 [1, 2, 3, 4, 5, 6] 0 (-60) (some "Smart Gadget")) =
      ({ emptySession with
          search_addr := some [1, 2, 3, 4, 5, 6]
          addr_type := some 1
          rssi := -60
          addr_found := true
          addr := some [1, 2, 3, 4, 5, 6]
          name := some "Smart Gadget" },
       [.stopScan]) := by
  have h := (C5_scan_result { emptySession with search_addr := some [1, 2, 3, 4, 5, 6] }
      1 [1, 2, 3, 4, 5, 6] 0 (-60) (some "Smart Gadget")).1
      (by exact ⟨Or.inl rfl, rfl⟩)
  simpa using h

/-- A disconnected session holding a stale service cache from an earlier
connection. -/
def staleCacheSession : Session :=
  { emptySession with services := some [("0x1800", 1, 5)] }

/-- C7 (counterexample): calling `discover_services` while disconnected DOES
change session state: `self.services = {}` runs before the `is_connected`
check, so the stale services cache is wiped even though the operation is
otherwise a no-op.  This refutes the "no session state is changed" part of
the claim. -/
theorem C7_counterexample :
    is_connected staleCacheSession = false ∧
    (discover_services staleCacheSession none).1.services = some [] ∧
    (discover_services staleCacheSession none).1 ≠ staleCacheSession := by
  decide

/-- C7 (amended): calling a connected-only operation while disconnected
stores no callback, invokes none, issues no radio-stack call, and leaves
`value_handle` and all other session state unchanged — except that
`discover_services` resets the `services` cache to empty and
`discover_characteristics` resets the `characteristics` cache to empty,
because both do so before their connectedness check. -/
theorem C7_disconnected_noop (s : Session) (cb : Option Nat)
    (rcb : Option ReadCb) (startH endH : Nat)
    (h : is_connected s = false) :
    discover_services s cb = ({ s with services := some [] }, []) ∧
    discover_characteristics s startH endH cb =
      ({ s with characteristics := some [] }, []) ∧
    read s rcb = (s, []) ∧
    read_battery_level s rcb = (s, []) ∧
    read_temp_sensor s rcb = (s, []) ∧
    read_humid_sensor s rcb = (s, []) := by
  have hn : s.conn_handle = none := by
    cases hc : s.conn_handle with
    | none => rfl
    | some k => rw [is_connected, hc] at h; cases h
  refine ⟨?_, ?_, ?_, ?_, ?_, ?_⟩ <;>
    simp [discover_services, discover_characteristics, read,
          read_battery_level, read_temp_sensor, read_humid_sensor, hn]

/-- C7 witness: the amended theorem applied to the concrete disconnected
session with a stale cache. -/
theorem C7_disconnected_noop_witness :
    discover_services staleCacheSession (some 9) =
      ({ staleCacheSession with services := some [] }, []) ∧
    read_battery_level staleCacheSession (some .battery_done) =
      (staleCacheSession, []) := by
  have h := C7_disconnected_noop staleCacheSession (some 9)
      (some .battery_done) 1 65535 rfl
  exact ⟨h.1, h.2.2.2.1⟩

/-- C8: round-trip of the result decoders.  The battery decoder on the
single-byte payload `0x64` stores the decoded value `100` and advances the
state; the temperature decoder on the little-endian IEEE-754 single-precision
encoding of 23.5 (`00 00 BC 41`) stores exactly the rational 47/2 = 23.5 and
advances the state. -/
theorem C8_decoder_roundtrip (s : Session) :
    read_battery_level_done s [0x64] =
      .ok { s with battery := some 100, state := S_READ_BATTERY_DONE } ∧
    read_temp_sensor_done s [0x00, 0x00, 0xBC, 0x41] =
      .ok { s with temperature := some (.finite ((47 : ℚ) / 2)),
                   state := S_READ_TSENSOR_DONE } := by
  constructor
  · rfl
  · simp [read_temp_sensor_done, struct_unpack_f_le, decodeF32LE, pow2q]
    norm_num

/-- C9: each result decoder raises an explicit `struct.error` when the payload
is shorter than its fixed layout requires (battery: one byte; temperature and
humidity: four bytes); the error propagates before any assignment, so the
decoded telemetry field is never set to a default or wrong value. -/
theorem C9_short_payload_error (s : Session) (data : List Nat) :
    (data.length < 1 →
      read_battery_level_done s data =
        .error "struct.error: unpack requires a buffer of 1 bytes") ∧
    (data.length < 4 →
      read_temp_sensor_done s data =
        .error "struct.error: unpack requires a buffer of 4 bytes" ∧
      read_humid_sensor_done s data =
        .error "struct.error: unpack requires a buffer of 4 bytes") := by
  constructor
  · intro h
    have hd : data = [] := List.eq_nil_of_length_eq_zero (by omega)
    subst hd; rfl
  · intro h
    rcases data with _ | ⟨a, _ | ⟨b, _ | ⟨c, _ | ⟨d, rest⟩⟩⟩⟩
    · exact ⟨rfl, rfl⟩
    · exact ⟨rfl, rfl⟩
    · exact ⟨rfl, rfl⟩
    · exact ⟨rfl, rfl⟩
    · simp [List.length_cons] at h; omega

/-- C9 witness: the short-payload errors at concrete inputs (empty payload
for the battery decoder, three-byte payload for the float decoders). -/
theorem C9_short_payload_error_witness :
    read_battery_level_done emptySession [] =
      .error "struct.error: unpack requires a buffer of 1 bytes" ∧
    read_temp_sensor_done emptySession [0, 0, 188] =
      .error "struct.error: unpack requires a buffer of 4 bytes" ∧
    read_humid_sensor_done emptySession [0, 0, 188] =
      .error "struct.error: unpack requires a buffer of 4 bytes" := by
  refine ⟨(C9_short_payload_error emptySession []).1 (by decide), ?_, ?_⟩
  · exact ((C9_short_payload_error emptySession [0, 0, 188]).2 (by decide)).1
  · exact ((C9_short_payload_error emptySession [0, 0, 188]).2 (by decide)).2

/-- C10: the `scan` trigger clears only the cached address and address type
(and stores the new scan callback); it leaves `addr_found`, `name` and `rssi`
untouched.  Consequently, in a session where a prior scan found the target,
a new `scan` followed by a scan-done with no scan results still reports
`addr_found = true` (stale) at scan completion; and `addr_found` becomes
`false` only through a full session reset. -/
theorem C10_scan_leaves_addr_found (s : Session) (cb : Option ScanCb)
    (h : s.addr_found = true) :
    scan s cb =
      ({ s with addr_type := none, addr := none, scan_callback := cb },
       [.startScan]) ∧
    (irq (scan s cb).1 .scanDone).1.addr_found = true ∧
    ∀ e : Event, (irq s e).1.addr_found = false → (irq s e).1 = reset s := by
  refine ⟨rfl, ?_, ?_⟩
  · cases cb with
    | none => simpa [scan, irq] using h
    | some c =>
        cases c <;> simpa [scan, irq, applyScanCb, scan_done] using h
  · intro e hf
    cases e with
    | scanResult atype addr advType rssi decName =>
        simp only [irq] at hf ⊢
        split at hf
        · simp at hf
        · rw [hf] at h; cases h
    | scanDone =>
        simp only [irq] at hf ⊢
        split at hf
        · rw [hf] at h; cases h
        · rename_i cb2 hcb
          split at hf <;>
            cases cb2 <;>
            simp [applyScanCb, scan_done, h] at hf
    | periphConnect connH atype addr =>
        simp only [irq] at hf ⊢
        split at hf
        · split at hf <;> (rw [hf] at h; cases h)
        · rw [hf] at h; cases h
    | periphDisconnect connH =>
        simp only [irq] at hf ⊢
        split at hf
        · rename_i hcond; simp [hcond]
        · rw [hf] at h; cases h
    | serviceResult connH startH endH uuid =>
        simp only [irq] at hf ⊢
        split at hf
        · split at hf
          · rw [hf] at h; cases h
          · split at hf <;> (rw [hf] at h; cases h)
        · rw [hf] at h; cases h
    | serviceDone =>
        simp only [irq] at hf ⊢
        split at hf <;> (rw [hf] at h; cases h)
    | charResult connH defH valueH props uuid =>
        simp only [irq] at hf ⊢
        split at hf
        · split at hf <;> (rw [hf] at h; cases h)
        · rw [hf] at h; cases h
    | charDone =>
        simp only [irq] at hf ⊢
        split at hf <;> (rw [hf] at h; cases h)
    | readResult connH valueH charData =>
        simp only [irq] at hf ⊢
        split at hf
        · split at hf
          · rw [hf] at h; cases h
          · rename_i cb2 hcb
            split at hf
            · rename_i s2 hap
              rcases applyReadCb_ok cb2 _ s2 charData hap with
                ⟨hb, bb, rfl⟩ | ⟨ht, tt, rfl⟩ | ⟨hq, qq, rfl⟩ | rfl <;>
                (rw [hf] at h; cases h)
            · rw [hf] at h; cases h
        · rw [hf] at h; cases h
    | readDone connH valueH status =>
        simp only [irq] at hf; rw [hf] at h; cases h
    | writeDone connH valueH status =>
        simp only [irq] at hf ⊢
        split at hf
        · split at hf <;> (rw [hf] at h; cases h)
        · rw [hf] at h; cases h
    | gattcNotify connH valueH notifyData =>
        simp only [irq] at hf ⊢
        split at hf
        · split at hf <;> (rw [hf] at h; cases h)
        · rw [hf] at h; cases h

/-- C10 witness: the frame property at a concrete session that had found the
target, running a fresh scan that finds nothing. -/
theorem C10_scan_leaves_addr_found_witness :
    scan { emptySession with addr_found := true, rssi := -60 } none =
      ({ emptySession with
          addr_found := true
          rssi := -60
          addr_type := none
          addr := none
          scan_callback := none },
       [.startScan]) ∧
    (irq (scan { emptySession with addr_found := true, rssi := -60 } none).1
        .scanDone).1.addr_found = true := by
  have h := C10_scan_leaves_addr_found
      { emptySession with addr_found := true, rssi := -60 } none rfl
  exact ⟨h.1, h.2.1⟩

end SmartGadget
